import Mathlib

/-!
Verification of the Apartment-Hunter core pipelines.

This file gives a shallow embedding, in Lean 4, of the two algorithmic
subsystems of the repository:

* the tiered hybrid sentiment classifier, the recency weighter and the
  aggregate review scorer of `backend/mock_reddit_data.py`;
* the anti-hallucination question pipeline of
  `backend/utils/question_generator.py`.

Modelling conventions:

* Python strings are modelled as `List Char` (written `"...".data`), so that
  all string operations compute in the kernel.  Matching in the source is
  case-insensitive substring containment; `containsSub hay needle` mirrors
  Python's `needle in hay`.
* Decimal arithmetic whose float evaluation provably cannot cross any
  comparison in the source is modelled with scaled integers: sentiment
  scores are scaled by 10 (`sentiment_score10 = 10 × score`; the damped
  score `0.7 * raw` with integer `raw` sits at distance at least 0.1 from
  every threshold 3, -3, 1, -1, while binary64 evaluation of `raw * 0.7`
  errs by less than `2^-40` at any realizable magnitude), confidences by 2
  (`confidence2 = 2 × confidence`; multiples of 0.5 are exact in binary64),
  the recency weighter's returned constants by 10, and the validator's
  coverage test `len/max(1,total) < 0.5` as `2*len < max 1 total` (a float
  flip there would need more than `2^53` candidates).
* The aggregate review scorer performs genuine float sums and divisions
  whose comparisons differ from exact decimal arithmetic at decimal ties,
  so it is modelled with faithful binary64 arithmetic: nonnegative dyadic
  values `m * 2^g` (every finite double is dyadic) with correctly rounded
  addition and division — round to nearest, ties to even, 53 significant
  bits, the rounding IEEE-754 binary64 performs.  The exponent is left
  unbounded in the model: the overflow and subnormal thresholds of binary64
  are reachable only with comment lists of length beyond `2^970`.
* The external LLM transport is opaque in the source (an injected outcome):
  the sentiment call is an `LLMOutcome` (it raises, or returns a response
  string), the question-generation call an `Except Unit (List PyDict)`
  (it raises somewhere in transport/JSON parsing, or yields the parsed
  candidate list).  Each classifier/generator entry point returns, next to
  its result, a `Bool` recording whether the external call was invoked.
* Python dicts (generator candidates and emitted questions) are association
  lists `PyDict` over string keys; `dictGet`/`dictSet` mirror `d.get(k, v)`
  and `d[k] = v`.
-/

namespace ApartmentHunter

/-- Python strings, modelled as lists of characters. -/
abbrev Str := List Char

/-- Containment test `needle in hay` on Python strings (substring test). -/
def containsSub (hay : Str) : Str → Bool := fun nee =>
  match hay with
  | [] => nee.isEmpty
  | _ :: t => nee.isPrefixOf hay || containsSub t nee

/-- Python's `str.lower()` (the vocabularies of the source are ASCII). -/
def pyLower (s : Str) : Str := s.map Char.toLower

/-- Python's `str.strip()`: drop leading and trailing whitespace. -/
def pyStrip (s : Str) : Str :=
  ((s.dropWhile Char.isWhitespace).reverse.dropWhile Char.isWhitespace).reverse

/-- Python's `str.split()` with no argument: split on whitespace runs,
never producing empty words. -/
def pySplitWS (s : Str) : List Str :=
  (s.splitOnP Char.isWhitespace).filter (fun w => ¬ w.isEmpty)

/-- Python's `sep.join(parts)`. -/
def pyJoin (sep : Str) : List Str → Str
  | [] => []
  | [x] => x
  | x :: y :: rest => x ++ sep ++ pyJoin sep (y :: rest)

/-! ## Lexical scorer (`infer_sentiment`, `mock_reddit_data.py` lines 117-193) -/

/-- College-specific negative phrases (weight 3). -/
def college_negative : List Str :=
  ["sketchy", "loud parties", "thin walls", "far from campus",
   "overpriced", "landlord sucks", "avoid", "scam", "dirty",
   "roaches", "mold", "broken ac", "parking nightmare"].map String.data

/-- College-specific positive phrases (weight 3). -/
def college_positive : List Str :=
  ["close to campus", "quiet", "great location", "worth it",
   "responsive landlord", "clean", "spacious", "good deal",
   "highly recommend", "love living here", "clutch"].map String.data

/-- Strong negative indicators (weight 2). -/
def strong_negative : List Str :=
  ["worst", "terrible", "awful", "disgusting", "avoid", "nightmare",
   "scam", "shady", "broken", "horrible", "trash", "sucks", "hate",
   "miserable", "brutal", "never again", "rip off"].map String.data

/-- Moderate negative indicators (weight 1); named `negative` in the source. -/
def negative_terms : List Str :=
  ["bad", "issue", "problem", "annoying", "inconvenient", "sketchy",
   "loud", "noisy", "far", "expensive", "old", "small",
   "complaint", "disappointing", "meh", "mediocre"].map String.data

/-- Strong positive indicators (weight 2). -/
def strong_positive : List Str :=
  ["best", "amazing", "perfect", "excellent", "love", "great",
   "wonderful", "fantastic", "highly recommend", "awesome", "clutch",
   "gem", "steal", "couldn\x27t be happier"].map String.data

/-- Moderate positive indicators (weight 1); named `positive` in the source. -/
def positive_terms : List Str :=
  ["good", "nice", "clean", "safe", "convenient", "happy", "worth",
   "solid", "recommend", "impressed", "comfortable", "spacious",
   "decent", "satisfied"].map String.data

/-- Negation words. -/
def negations : List Str :=
  ["not", "no", "never", "don\x27t", "didn\x27t", "won\x27t", "barely"].map String.data

/-- Number of phrases of `phrases` contained in the lower-cased text:
`sum(1 for phrase in phrases if phrase in text_lower)`. -/
def hit_count (phrases : List Str) (text : Str) : Nat :=
  (phrases.filter (fun p => containsSub (pyLower text) p)).length

/-- Count of negation words present in the text. -/
def negation_count (text : Str) : Nat := hit_count negations text

/-- The weighted score before negation adjustment (an exact integer):
`(college_pos*3 + strong_pos*2 + pos) - (college_neg*3 + strong_neg*2 + neg)`. -/
def raw_sentiment_score (text : Str) : Int :=
  3 * (hit_count college_positive text : Int)
    + 2 * (hit_count strong_positive text : Int)
    + (hit_count positive_terms text : Int)
    - 3 * (hit_count college_negative text : Int)
    - 2 * (hit_count strong_negative text : Int)
    - (hit_count negative_terms text : Int)

/-- Ten times `sentiment_score`: when negations are present the source
multiplies the score by 0.7, so the scaled score is `7 * raw`, else
`10 * raw`.  `sentiment_score >= 3` in the source is `30 ≤ sentiment_score10`
here, and so on for the other thresholds. -/
def sentiment_score10 (text : Str) : Int :=
  if 0 < negation_count text then 7 * raw_sentiment_score text
  else 10 * raw_sentiment_score text

/-- Total number of (unweighted) positive and negative hits. -/
def total_signals (text : Str) : Nat :=
  hit_count college_positive text + hit_count college_negative text
    + hit_count strong_positive text + hit_count strong_negative text
    + hit_count positive_terms text + hit_count negative_terms text

/-- Twice `confidence`: the source subtracts `0.5 * negation_count` from
`total_signals` when negations are present (and 0 otherwise, which is the
same formula), so `confidence < 2` is `confidence2 < 4` here. -/
def confidence2 (text : Str) : Int :=
  2 * (total_signals text : Int) - (negation_count text : Int)

/-! ## External sentiment call (`infer_sentiment_llm`, lines 40-99) -/

/-- Outcome of the external classification transport: the call raises an
exception, or returns a response string. -/
inductive LLMOutcome where
  | raises : LLMOutcome
  | returns (response : Str) : LLMOutcome
deriving DecidableEq

/-- Embedding of `infer_sentiment_llm`: strip and lower-case the response,
accept its first word when it is one of the three labels, otherwise recover
by substring match on "positive"/"negative"; any exception or other
response yields "unknown". -/
def infer_sentiment_llm : LLMOutcome → Str
  | .raises => "unknown".data
  | .returns resp =>
    let sentiment := pyLower (pyStrip resp)
    let first_word :=
      match pySplitWS sentiment with
      | [] => "unknown".data
      | w :: _ => w
    if first_word = "positive".data ∨ first_word = "negative".data
        ∨ first_word = "neutral".data then first_word
    else if containsSub sentiment "positive".data then "positive".data
    else if containsSub sentiment "negative".data then "negative".data
    else "unknown".data

/-! ## Hybrid classifier (`infer_sentiment`, lines 102-241) -/

/-- Embedding of `infer_sentiment`.  Returns the label together with a `Bool`
recording whether the external classification call was invoked.  Tier 1
decides on `sentiment_score >= 3` / `<= -3` with no external call; Tier 2
escalates when `confidence < 2` (and `use_hybrid`), trusting any non-unknown
external answer; Tier 3 is the moderate rule fallback. -/
def infer_sentiment (text : Str) (use_hybrid : Bool) (llm : LLMOutcome) : Str × Bool :=
  if 30 ≤ sentiment_score10 text then ("positive".data, false)
  else if sentiment_score10 text ≤ -30 then ("negative".data, false)
  else
    let tier3 : Str :=
      if 10 ≤ sentiment_score10 text then "positive".data
      else if sentiment_score10 text ≤ -10 then "negative".data
      else "neutral".data
    if use_hybrid ∧ confidence2 text < 4 then
      let llm_result := infer_sentiment_llm llm
      if llm_result ≠ "unknown".data then (llm_result, true)
      else (tier3, true)
    else (tier3, false)

/-! ## Recency weighter (`calculate_recency_weight`, lines 244-276) -/

/-- Parse of `datetime.strptime(s, "%Y-%m")` followed by the `datetime`
validity check: `%Y` matches exactly four digits, `%m` matches `1[0-2]`,
`0[1-9]` or `[1-9]`, nothing may remain after the match, and a year of 0 is
rejected by the `datetime` constructor (any failure is caught by the source
and mapped to the default weight).  Digits are modelled as ASCII digits. -/
def parseYM (s : Str) : Option (Nat × Nat) :=
  match s with
  | [a, b, c, d, '-', e] =>
    if a.isDigit ∧ b.isDigit ∧ c.isDigit ∧ d.isDigit ∧ '1' ≤ e ∧ e ≤ '9' then
      let year := 1000 * (a.toNat - 48) + 100 * (b.toNat - 48) + 10 * (c.toNat - 48) + (d.toNat - 48)
      if year = 0 then none else some (year, e.toNat - 48)
    else none
  | [a, b, c, d, '-', e, f] =>
    if a.isDigit ∧ b.isDigit ∧ c.isDigit ∧ d.isDigit
        ∧ ((e = '0' ∧ '1' ≤ f ∧ f ≤ '9') ∨ (e = '1' ∧ '0' ≤ f ∧ f ≤ '2')) then
      let year := 1000 * (a.toNat - 48) + 100 * (b.toNat - 48) + 10 * (c.toNat - 48) + (d.toNat - 48)
      if year = 0 then none else some (year, 10 * (e.toNat - 48) + (f.toNat - 48))
    else none
  | _ => none

/-- Whole months elapsed from the parsed date to the fixed reference date
2025-01: `(2025 - year) * 12 + (1 - month)`. -/
def months_old (year month : Nat) : Int :=
  (2025 - (year : Int)) * 12 + (1 - (month : Int))

/-- Embedding of `calculate_recency_weight`, scaled by 10 (`15` stands for
the source's `1.5`, and so on). -/
def calculate_recency_weight10 (time_posted : Str) : Nat :=
  match parseYM time_posted with
  | none => 10
  | some (y, m) =>
    if months_old y m ≤ 2 then 15
    else if months_old y m ≤ 6 then 12
    else if months_old y m ≤ 12 then 10
    else 7

/-! ## Binary64 arithmetic for the aggregate scorer

The overall-score block of `get_mock_student_reviews` sums recency weights
and compares weight ratios in Python floats, and those comparisons can
differ from exact decimal arithmetic at decimal ties (ten comments of
weight 0.7 sum to 7.000000000000001, not 7).  The model below computes
with the values binary64 actually holds: nonnegative dyadic rationals
`m * 2^g`, with addition and division correctly rounded to 53 significant
bits, round to nearest, ties to even.  Comparisons of finite doubles are
exact value comparisons, so they need no rounding.  The exponent is
unbounded here; binary64 overflow/subnormal behaviour is reachable only
with comment lists of length beyond `2^970`. -/

/-- Bit length of a natural number (`0` for `0`), by fuelled halving; the
fuel `n` always suffices because `bitlen n ≤ n` for `n ≥ 1`. -/
def natBitsAux : Nat → Nat → Nat
  | 0, _ => 0
  | fuel + 1, n => if n = 0 then 0 else natBitsAux fuel (n / 2) + 1

/-- Bit length of a natural number: the unique `b` with `2^(b-1) ≤ n < 2^b`
for `n ≥ 1`, and `0` for `0`. -/
def natBits (n : Nat) : Nat := natBitsAux n n

/-- A nonnegative dyadic value `m * 2^g` — the value domain of nonnegative
finite IEEE-754 binary64 numbers.  The representation is not canonical
(`m` may be even); operations only ever compare and combine values. -/
structure Dy where
  m : Nat
  g : Int
deriving DecidableEq

/-- The dyadic zero. -/
def dy0 : Dy := ⟨0, 0⟩

/-- The binary64 value 0.5 (exact). -/
def dyHalf : Dy := ⟨1, -1⟩

/-- Round a dyadic value to 53 significant bits, round to nearest, ties to
even — binary64 rounding with unbounded exponent.  A value of at most 53
bits is already on the grid. -/
def round53 (x : Dy) : Dy :=
  if natBits x.m ≤ 53 then x
  else
    let s := natBits x.m - 53
    let q := x.m / 2 ^ s
    let r := x.m % 2 ^ s
    let qr := if r < 2 ^ (s - 1) then q
              else if 2 ^ (s - 1) < r then q + 1
              else if q % 2 = 0 then q else q + 1
    ⟨qr, x.g + s⟩

/-- Binary64 addition: the exact dyadic sum (exponents aligned), correctly
rounded. -/
def Dy.add (x y : Dy) : Dy :=
  let g := min x.g y.g
  round53 ⟨x.m * 2 ^ (x.g - g).toNat + y.m * 2 ^ (y.g - g).toNat, g⟩

/-- Binary64 comparison `x < y`: exact value comparison of the two dyadic
values (floats compare by value). -/
def Dy.lt (x y : Dy) : Bool :=
  if x.g ≤ y.g then decide (x.m < y.m * 2 ^ (y.g - x.g).toNat)
  else decide (x.m * 2 ^ (x.g - y.g).toNat < y.m)

/-- Binary64 division, correctly rounded: the exact quotient is
`(N + r/y.m) * 2^(x.g - y.g - k)` with `N`, `r` the Euclidean quotient and
remainder of `x.m * 2^k` by `y.m`; the extra precision `k` forces `N` above
`2^54`, and the discarded fraction `(rlow + r/y.m) / 2^s` is compared with
half an ulp by the exact integer comparison `2*(rlow*y.m + r)` versus
`2^s * y.m` to decide the rounding direction (ties to even).  The source
divides only when the total weight is positive; the zero-divisor branch is
an unreachable guard. -/
def Dy.div (x y : Dy) : Dy :=
  if y.m = 0 then ⟨0, 0⟩
  else
    let k := 55 + natBits y.m - natBits x.m
    let N := x.m * 2 ^ k / y.m
    let r := x.m * 2 ^ k % y.m
    let s := natBits N - 53
    let q := N / 2 ^ s
    let rlow := N % 2 ^ s
    let qr := if 2 * (rlow * y.m + r) < 2 ^ s * y.m then q
              else if 2 ^ s * y.m < 2 * (rlow * y.m + r) then q + 1
              else if q % 2 = 0 then q else q + 1
    ⟨qr, x.g - y.g - (k : Int) + (s : Int)⟩

/-- Python's `sum(...)` over floats: a left fold of binary64 addition
starting from zero (the initial `0 + w` is exact). -/
def fsum (l : List Dy) : Dy := l.foldl Dy.add dy0

/-- The binary64 value of the recency weight 1.5 (exact). -/
def weight15 : Dy := ⟨3, -1⟩

/-- The binary64 value nearest the recency weight 1.2:
`5404319552844595 * 2^-52` (1.2 is not representable). -/
def weight12 : Dy := ⟨5404319552844595, -52⟩

/-- The binary64 value of the recency weight 1.0 (exact). -/
def weight10 : Dy := ⟨1, 0⟩

/-- The binary64 value nearest the recency weight 0.7:
`3152519739159347 * 2^-52` (0.7 is not representable). -/
def weight07 : Dy := ⟨3152519739159347, -52⟩

/-- The score literal 2.0 (exact in binary64). -/
def score_2_0 : Dy := ⟨2, 0⟩

/-- The score literal 2.5 (exact in binary64). -/
def score_2_5 : Dy := ⟨5, -1⟩

/-- The score literal 3.0 (exact in binary64). -/
def score_3_0 : Dy := ⟨3, 0⟩

/-- The score literal 3.5 (exact in binary64). -/
def score_3_5 : Dy := ⟨7, -1⟩

/-- The score literal 4.5 (exact in binary64). -/
def score_4_5 : Dy := ⟨9, -1⟩

/-! ## Aggregate review scorer (`get_mock_student_reviews`, lines 494-515) -/

/-- Float sum of the recency weights of a comment list; each comment is a
`(sentiment, recency_weight)` pair with a binary64 weight. -/
def total_weight (comments : List (Str × Dy)) : Dy :=
  fsum (comments.map (fun c => c.2))

/-- Float sum of the recency weights of positive-sentiment comments. -/
def weighted_positive (comments : List (Str × Dy)) : Dy :=
  fsum ((comments.filter (fun c => c.1 = "positive".data)).map (fun c => c.2))

/-- Float sum of the recency weights of negative-sentiment comments. -/
def weighted_negative (comments : List (Str × Dy)) : Dy :=
  fsum ((comments.filter (fun c => c.1 = "negative".data)).map (fun c => c.2))

/-- The float ratio `pos_ratio = weighted_positive / total_weight` of the
source. -/
def pos_share (comments : List (Str × Dy)) : Dy :=
  Dy.div (weighted_positive comments) (total_weight comments)

/-- The float ratio `neg_ratio = weighted_negative / total_weight` of the
source. -/
def neg_share (comments : List (Str × Dy)) : Dy :=
  Dy.div (weighted_negative comments) (total_weight comments)

/-- Embedding of the overall-score block of `get_mock_student_reviews` over
binary64 arithmetic; the returned score literals are exactly representable,
so they appear as exact dyadic constants. -/
def overall_score (comments : List (Str × Dy)) : Dy :=
  if Dy.lt dy0 (total_weight comments) then
    if Dy.lt dyHalf (neg_share comments) then score_2_0
    else if Dy.lt dyHalf (pos_share comments) then score_4_5
    else if Dy.lt (neg_share comments) (pos_share comments) then score_3_5
    else if Dy.lt (pos_share comments) (neg_share comments) then score_2_5
    else score_3_0
  else score_3_0

/-! ## Python dict values (generator candidates and emitted questions) -/

/-- Values stored in a candidate-question dict: a string, or a list of
strings (the `flag_ids` payload). -/
inductive PyVal where
  | pstr (s : Str) : PyVal
  | plist (l : List Str) : PyVal
deriving DecidableEq

/-- A Python dict with string keys, as an association list. -/
abbrev PyDict := List (Str × PyVal)

/-- Python's `d.get(k, dflt)`. -/
def dictGet (d : PyDict) (k : Str) (dflt : PyVal) : PyVal :=
  match d with
  | [] => dflt
  | p :: t => if p.1 = k then p.2 else dictGet t k dflt

/-- Key-membership test for a dict. -/
def dictContains (d : PyDict) (k : Str) : Bool :=
  d.any (fun p => p.1 = k)

/-- Python's `d[k] = v`: overwrite in place when the key is present,
append otherwise. -/
def dictSet (d : PyDict) (k : Str) (v : PyVal) : PyDict :=
  if dictContains d k then d.map (fun p => if p.1 = k then (k, v) else p)
  else d ++ [(k, v)]

/-- Iterating a Python value: iterating a string yields its characters as
one-character strings, iterating a list yields its elements.  This is what
`for flag_id in q.get('flag_ids', [])` does on either payload shape. -/
def pyIter : PyVal → List Str
  | .pstr s => s.map (fun c => [c])
  | .plist l => l

/-- The `referenced_ids` of a candidate: `q.get('flag_ids', [])`, iterated. -/
def getFlagIds (q : PyDict) : List Str :=
  pyIter (dictGet q "flag_ids".data (PyVal.plist []))

/-! ## Flag tagging (`_prepare_flags_with_ids`, `question_generator.py` lines 86-146) -/

/-- A tagged flag (a pure value object, one per detected issue). -/
structure Flag where
  id : Str
  type : Str
  description : Str
  severity : Str
  reason : Str
deriving DecidableEq

/-- A red-flag record from the text analyzer; fields looked up with
`flag.get('flag', '')` etc., so each is optional. -/
structure RedFlagIn where
  flag : Option Str
  severity : Option Str
  reason : Option Str
deriving DecidableEq

/-- A missing-information record from the text analyzer. -/
structure MissingInfoIn where
  item : Option Str
  importance : Option Str
  why : Option Str
deriving DecidableEq

/-- A photo-issue record from the image analyzer. -/
structure PhotoIssueIn where
  issue : Option Str
  severity : Option Str
  explanation : Option Str
deriving DecidableEq

/-- A student comment as consumed by the flag tagger. -/
structure CommentIn where
  text : Option Str
  sentiment : Option Str
  category : Option Str
deriving DecidableEq

/-- The text-analysis input of `generate_questions` (the `listing_text`
field only feeds the opaque prompt and is not modelled). -/
structure TextAnalysis where
  red_flags : List RedFlagIn
  missing_info : List MissingInfoIn
deriving DecidableEq

/-- The image-analysis input of `generate_questions`. -/
structure ImageAnalysis where
  photo_issues : List PhotoIssueIn
deriving DecidableEq

/-- The student-reviews input of `generate_questions`. -/
structure StudentReviews where
  comments : List CommentIn
deriving DecidableEq

/-- Tag red flags: ids `text_flag_<i>` by position. -/
def tag_red_flags (l : List RedFlagIn) : List Flag :=
  l.enum.map (fun p =>
    { id := "text_flag_".data ++ (Nat.repr p.1).data
      type := "red_flag".data
      description := p.2.flag.getD []
      severity := p.2.severity.getD "medium".data
      reason := p.2.reason.getD [] })

/-- Tag missing information: ids `missing_info_<i>` by position. -/
def tag_missing_info (l : List MissingInfoIn) : List Flag :=
  l.enum.map (fun p =>
    { id := "missing_info_".data ++ (Nat.repr p.1).data
      type := "missing_info".data
      description := "Missing: ".data ++ p.2.item.getD []
      severity := p.2.importance.getD "medium".data
      reason := p.2.why.getD [] })

/-- Tag photo issues: ids `photo_issue_<i>` by position. -/
def tag_photo_issues (l : List PhotoIssueIn) : List Flag :=
  l.enum.map (fun p =>
    { id := "photo_issue_".data ++ (Nat.repr p.1).data
      type := "photo_issue".data
      description := p.2.issue.getD []
      severity := p.2.severity.getD "medium".data
      reason := p.2.explanation.getD [] })

/-- Tag student concerns: the first three negative-sentiment comments, in
input order, ids `student_concern_<i>`. -/
def tag_student_concerns (comments : List CommentIn) : List Flag :=
  ((comments.filter (fun c => c.sentiment = some "negative".data)).take 3).enum.map (fun p =>
    { id := "student_concern_".data ++ (Nat.repr p.1).data
      type := "student_concern".data
      description := "Student feedback: ".data ++ p.2.category.getD "general".data
        ++ " concerns".data
      severity := "medium".data
      reason := (p.2.text.getD []).take 100 })

/-- Embedding of `_prepare_flags_with_ids`.  The source also builds the set
`valid_flag_ids` by adding each tagged id as it goes, so that set holds
exactly the ids of the tagged flags, in the same order here. -/
def prepare_flags_with_ids (ta : TextAnalysis) (ia : ImageAnalysis) (sr : StudentReviews) :
    List Flag × List Str :=
  let tagged_flags :=
    tag_red_flags ta.red_flags ++ tag_missing_info ta.missing_info
      ++ tag_photo_issues ia.photo_issues ++ tag_student_concerns sr.comments
  (tagged_flags, tagged_flags.map Flag.id)

/-! ## Category derivation (`_determine_category`, lines 217-242) -/

/-- Embedding of `_determine_category`: the category comes from the prefix
of the first referenced flag id. -/
def determine_category (flag_ids : List Str) : Str :=
  match flag_ids with
  | [] => "general".data
  | first_id :: _ =>
    if "text_flag".data.isPrefixOf first_id then "listing_description".data
    else if "missing_info".data.isPrefixOf first_id then "missing_details".data
    else if "photo_issue".data.isPrefixOf first_id then "photos".data
    else if "student_concern".data.isPrefixOf first_id then "student_concerns".data
    else "general".data

/-! ## Output validation (`_validate_llm_output`, lines 245-290) -/

/-- The per-candidate acceptance test: every referenced flag id is in the
valid-id set. -/
def accepted_by_validator (q : PyDict) (valid_flag_ids : List Str) : Bool :=
  (getFlagIds q).all (fun fid => valid_flag_ids.contains fid)

/-- The validation loop of `_validate_llm_output`: returns the accepted
candidates (each with the derived `category` field written into it), in
input order, together with the count of rejected (hallucinated) candidates. -/
def validate_loop (questions : List PyDict) (valid_flag_ids : List Str) :
    List PyDict × Nat :=
  match questions with
  | [] => ([], 0)
  | q :: rest =>
    let r := validate_loop rest valid_flag_ids
    if accepted_by_validator q valid_flag_ids then
      (dictSet q "category".data (PyVal.pstr (determine_category (getFlagIds q))) :: r.1, r.2)
    else (r.1, r.2 + 1)

/-- Embedding of `_validate_llm_output`: per-candidate validation followed
by the ordered fallback decision.  The source's `coverage < 0.5` with
`coverage = len(validated) / max(1, total_flags)` is the exact comparison
`2 * len(validated) < max 1 total_flags`.  The diagnostic reason strings are
abbreviated (only their presence matters). -/
def validate_llm_output (questions : List PyDict) (valid_flag_ids : List Str)
    (total_flags : Nat) : List PyDict × Bool × Option Str :=
  let validated := (validate_loop questions valid_flag_ids).1
  let hallucination_count := (validate_loop questions valid_flag_ids).2
  if validated.length = 0 ∧ 0 < total_flags then
    ([], true, some "LLM generated 0 valid questions".data)
  else if validated.length < hallucination_count then
    ([], true, some "Too many hallucinations".data)
  else if 2 * validated.length < max 1 total_flags ∧ 3 ≤ total_flags then
    ([], true, some "Low coverage".data)
  else (validated, false, none)

/-! ## Fallback composer (`_generate_fallback_questions`, lines 293-346) -/

/-- The bullet line of one flag: `"  • " + description`. -/
def bullet_line (f : Flag) : Str := "  • ".data ++ f.description

/-- The `concerns` list built by the fallback composer: the three severity
groups in the order high, medium, low, each with its header, separated by
blank lines. -/
def fallback_concerns (tagged_flags : List Flag) : List Str :=
  let high_priority := tagged_flags.filter (fun f => f.severity = "high".data)
  let medium_priority := tagged_flags.filter (fun f => f.severity = "medium".data)
  let low_priority := tagged_flags.filter (fun f => f.severity = "low".data)
  (if high_priority ≠ [] then
    "High Priority Issues:".data :: high_priority.map bullet_line
  else [])
  ++ (if medium_priority ≠ [] then
    (if high_priority ≠ [] then ["".data] else [])
      ++ "Additional Concerns:".data :: medium_priority.map bullet_line
  else [])
  ++ (if low_priority ≠ [] then
    (if high_priority ≠ [] ∨ medium_priority ≠ [] then ["".data] else [])
      ++ "Other Items:".data :: low_priority.map bullet_line
  else [])

/-- The composite question text of the fallback composer. -/
def fallback_question_text (tagged_flags : List Flag) : Str :=
  "I reviewed the listing and noticed the following points I\x27d like to address:\n\n".data
    ++ pyJoin "\n".data (fallback_concerns tagged_flags)
    ++ "\n\nCould you please provide clarification on each of these items?".data

/-- Embedding of `_generate_fallback_questions`: one composite question
enumerating the grouped flags (no `flag_ids` field is attached to it). -/
def generate_fallback_questions (tagged_flags : List Flag) : List PyDict :=
  if tagged_flags = [] then []
  else
    [[("question".data, PyVal.pstr (fallback_question_text tagged_flags)),
      ("priority".data, PyVal.pstr
        (if tagged_flags.filter (fun f => f.severity = "high".data) ≠ [] then
          "high".data
        else "medium".data)),
      ("category".data, PyVal.pstr "comprehensive_review".data),
      ("reason".data, PyVal.pstr ((Nat.repr tagged_flags.length).data
        ++ " concerns identified during listing analysis".data))]]

/-- The `question` payload of an emitted question (its composite text). -/
def question_text (q : PyDict) : Str :=
  match dictGet q "question".data (PyVal.pstr []) with
  | .pstr s => s
  | .plist _ => []

/-! ## Question pipeline (`generate_questions`, lines 24-83) -/

/-- Embedding of `generate_questions`.  The external generation transport is
the parameter `llm`: `.error` when anything in the generation call raises
(network failure, malformed JSON), `.ok candidates` when it yields a parsed
candidate list.  Returns the emitted question list together with a `Bool`
recording whether the external generation call was invoked. -/
def generate_questions (ta : TextAnalysis) (ia : ImageAnalysis) (sr : StudentReviews)
    (llm : Except Unit (List PyDict)) : List PyDict × Bool :=
  let tagged_flags := (prepare_flags_with_ids ta ia sr).1
  let valid_flag_ids := (prepare_flags_with_ids ta ia sr).2
  let total_flags := tagged_flags.length
  if total_flags = 0 then ([], false)
  else
    match llm with
    | .error _ => (generate_fallback_questions tagged_flags, true)
    | .ok llm_questions =>
      let r := validate_llm_output llm_questions valid_flag_ids total_flags
      if r.2.1 = false then (r.1, true)
      else (generate_fallback_questions tagged_flags, true)

/-! ## Concrete sample inputs for closed-instance checks -/

/-- A request with one red flag (tagged as `text_flag_0`). -/
def sample_ta : TextAnalysis :=
  { red_flags := [{ flag := some "vague price".data, severity := some "high".data,
                    reason := some "no amount stated".data }],
    missing_info := [] }

/-- A request with no photo issues. -/
def sample_ia : ImageAnalysis := { photo_issues := [] }

/-- A request with no student comments. -/
def sample_sr : StudentReviews := { comments := [] }

/-- A generator candidate referencing the valid id `text_flag_0`, carrying a
priority string outside the {low, medium, high} enumeration. -/
def sample_good_candidate : PyDict :=
  [("question".data, PyVal.pstr "what is the rent?".data),
   ("flag_ids".data, PyVal.plist ["text_flag_0".data]),
   ("priority".data, PyVal.pstr "URGENT!!".data)]

/-- A generator candidate whose `flag_ids` list is empty. -/
def sample_empty_ids_candidate : PyDict :=
  [("question".data, PyVal.pstr "what is the rent?".data),
   ("flag_ids".data, PyVal.plist [])]

/-- A generator candidate with no `priority` field at all. -/
def sample_no_priority_candidate : PyDict :=
  [("question".data, PyVal.pstr "is there parking?".data),
   ("flag_ids".data, PyVal.plist ["text_flag_0".data])]

/-- A tagged flag of severity "high". -/
def sample_flag_high : Flag :=
  { id := "text_flag_0".data, type := "red_flag".data,
    description := "no lease term given".data, severity := "high".data,
    reason := "r1".data }

/-- A tagged flag of severity "low". -/
def sample_flag_low : Flag :=
  { id := "photo_issue_0".data, type := "photo_issue".data,
    description := "dark photos".data, severity := "low".data,
    reason := "r2".data }

/-- A tagged flag whose severity is an unrestricted upstream string. -/
def sample_flag_odd : Flag :=
  { id := "text_flag_0".data, type := "red_flag".data,
    description := "leaky roof".data, severity := "urgent".data,
    reason := "r".data }

/-! ## Helper lemmas -/

/-- The executable substring test agrees with list-infix containment. -/
theorem containsSub_iff (hay nee : Str) : containsSub hay nee = true ↔ nee <:+: hay := by
  induction hay with
  | nil =>
    simp [containsSub, List.isEmpty_iff, List.infix_nil]
  | cons a t ih =>
    simp [containsSub, ih, List.isPrefixOf_iff_prefix]
    constructor
    · rintro (h | h)
      · exact h.isInfix
      · exact h.trans (List.infix_cons_iff.mpr (Or.inr (List.infix_refl t)))
    · intro h
      rcases List.infix_cons_iff.mp h with h | h
      · exact Or.inl h
      · exact Or.inr h

/-- Every joined part is an infix of the join. -/
theorem mem_infix_pyJoin (sep : Str) {x : Str} {lines : List Str} (h : x ∈ lines) :
    x <:+: pyJoin sep lines := by
  induction lines with
  | nil => simp at h
  | cons a t ih =>
    rcases List.mem_cons.mp h with rfl | hx
    · cases t with
      | nil => exact List.infix_refl _
      | cons b r => exact ⟨[], sep ++ pyJoin sep (b :: r), by simp [pyJoin]⟩
    · cases t with
      | nil => simp at hx
      | cons b r => exact (ih hx).trans ⟨a ++ sep, [], by simp [pyJoin]⟩

theorem dictGet_map_overwrite (d : PyDict) (k k' : Str) (v dflt : PyVal) (h : k' ≠ k) :
    dictGet (d.map (fun p => if p.1 = k then (k, v) else p)) k' dflt = dictGet d k' dflt := by
  induction d with
  | nil => rfl
  | cons p t ih =>
    obtain ⟨a, b⟩ := p
    by_cases hp : a = k
    · subst hp
      simp [dictGet, Ne.symm h, ih]
    · simp [dictGet, hp, ih]

theorem dictGet_append_single_ne (d : PyDict) (k k' : Str) (v dflt : PyVal) (h : k' ≠ k) :
    dictGet (d ++ [(k, v)]) k' dflt = dictGet d k' dflt := by
  induction d with
  | nil => simp [dictGet, Ne.symm h]
  | cons p t ih =>
    obtain ⟨a, b⟩ := p
    simp [dictGet, ih]

/-- Writing one key of a dict leaves every other key unchanged. -/
theorem dictGet_dictSet_ne (d : PyDict) (k k' : Str) (v dflt : PyVal) (h : k' ≠ k) :
    dictGet (dictSet d k v) k' dflt = dictGet d k' dflt := by
  unfold dictSet
  by_cases hc : dictContains d k = true
  · rw [if_pos hc]
    exact dictGet_map_overwrite d k k' v dflt h
  · rw [if_neg hc]
    exact dictGet_append_single_ne d k k' v dflt h

theorem dictGet_map_overwrite_self (d : PyDict) (k : Str) (v dflt : PyVal)
    (hc : dictContains d k = true) :
    dictGet (d.map (fun p => if p.1 = k then (k, v) else p)) k dflt = v := by
  induction d with
  | nil => simp [dictContains] at hc
  | cons p t ih =>
    obtain ⟨a, b⟩ := p
    by_cases hp : a = k
    · subst hp
      simp [dictGet]
    · have hc2 : dictContains t k = true := by
        rw [dictContains, List.any_cons] at hc
        rcases Bool.or_eq_true_iff.mp hc with hh | hh
        · exact absurd (of_decide_eq_true hh) hp
        · exact hh
      simp [dictGet, hp, ih hc2]

theorem dictGet_append_single_self (d : PyDict) (k : Str) (v dflt : PyVal)
    (hc : dictContains d k = false) :
    dictGet (d ++ [(k, v)]) k dflt = v := by
  induction d with
  | nil => simp [dictGet]
  | cons p t ih =>
    obtain ⟨a, b⟩ := p
    rw [dictContains, List.any_cons] at hc
    rcases Bool.or_eq_false_iff.mp hc with ⟨h1, h2⟩
    have ha : ¬ a = k := of_decide_eq_false h1
    simp [dictGet, ha, ih h2]

/-- Writing a key of a dict makes that key hold the written value. -/
theorem dictGet_dictSet_self (d : PyDict) (k : Str) (v dflt : PyVal) :
    dictGet (dictSet d k v) k dflt = v := by
  unfold dictSet
  by_cases hc : dictContains d k = true
  · rw [if_pos hc]
    exact dictGet_map_overwrite_self d k v dflt hc
  · rw [if_neg hc]
    exact dictGet_append_single_self d k v dflt (Bool.not_eq_true _ ▸ hc)

/-- Every question produced by the validation loop comes from an accepted
candidate, with exactly the derived `category` written into it. -/
theorem validate_loop_mem {qs : List PyDict} {valid : List Str} {q' : PyDict}
    (h : q' ∈ (validate_loop qs valid).1) :
    ∃ q ∈ qs, accepted_by_validator q valid = true ∧
      q' = dictSet q "category".data (PyVal.pstr (determine_category (getFlagIds q))) := by
  induction qs with
  | nil => simp [validate_loop] at h
  | cons q rest ih =>
    simp only [validate_loop] at h
    by_cases hacc : accepted_by_validator q valid = true
    · rw [if_pos hacc] at h
      rcases List.mem_cons.mp h with h1 | h2
      · exact ⟨q, List.mem_cons_self q rest, hacc, h1⟩
      · obtain ⟨q0, hq0, ha, he⟩ := ih h2
        exact ⟨q0, List.mem_cons_of_mem q hq0, ha, he⟩
    · rw [if_neg hacc] at h
      obtain ⟨q0, hq0, ha, he⟩ := ih h
      exact ⟨q0, List.mem_cons_of_mem q hq0, ha, he⟩

/-- Questions emitted by `validate_llm_output` all come from the loop. -/
theorem validate_output_mem {qs : List PyDict} {valid : List Str} {total : Nat} {q' : PyDict}
    (h : q' ∈ (validate_llm_output qs valid total).1) :
    q' ∈ (validate_loop qs valid).1 := by
  simp only [validate_llm_output] at h
  split_ifs at h <;> simp_all

/-- The fallback composite question carries no `flag_ids` field, so it
references the empty id list. -/
theorem fallback_flag_ids {flags : List Flag} {q : PyDict}
    (h : q ∈ generate_fallback_questions flags) : getFlagIds q = [] := by
  unfold generate_fallback_questions at h
  split at h
  · simp at h
  · rw [List.mem_singleton] at h
    subst h
    rfl

/-- Accepted candidates reference only valid ids, and the category write
does not touch the `flag_ids` field. -/
theorem accepted_flag_ids {q : PyDict} {valid : List Str}
    (hacc : accepted_by_validator q valid = true) {fid : Str}
    (hfid : fid ∈ getFlagIds (dictSet q "category".data
      (PyVal.pstr (determine_category (getFlagIds q))))) :
    fid ∈ valid := by
  have hfr : getFlagIds (dictSet q "category".data
      (PyVal.pstr (determine_category (getFlagIds q)))) = getFlagIds q := by
    unfold getFlagIds
    rw [dictGet_dictSet_ne _ _ _ _ _ (by decide)]
  rw [hfr] at hfid
  have := List.all_eq_true.mp hacc fid hfid
  simpa [List.contains, List.elem_iff] using this

/-- Grounding of the whole pipeline: every id referenced by an emitted
question is one of the request's valid flag ids. -/
theorem generate_questions_grounded (ta : TextAnalysis) (ia : ImageAnalysis)
    (sr : StudentReviews) (llm : Except Unit (List PyDict)) {q : PyDict} {fid : Str}
    (hq : q ∈ (generate_questions ta ia sr llm).1) (hid : fid ∈ getFlagIds q) :
    fid ∈ (prepare_flags_with_ids ta ia sr).2 := by
  simp only [generate_questions] at hq
  split at hq
  · simp at hq
  · split at hq
    · rename_i heq
      simp only at hq
      rw [fallback_flag_ids hq] at hid
      simp at hid
    · rename_i llm_questions
      split at hq
      · rename_i hfb
        simp only at hq
        obtain ⟨q0, _, hacc, he⟩ := validate_loop_mem (validate_output_mem hq)
        subst he
        exact accepted_flag_ids hacc hid
      · simp only at hq
        rw [fallback_flag_ids hq] at hid
        simp at hid

/-- A flag of one of the three recognised severities contributes its bullet
line to the grouped concerns of the fallback composer. -/
theorem bullet_mem_concerns {flags : List Flag} {f : Flag} (hf : f ∈ flags)
    (hsev : f.severity = "high".data ∨ f.severity = "medium".data
      ∨ f.severity = "low".data) :
    bullet_line f ∈ fallback_concerns flags := by
  simp only [fallback_concerns]
  rcases hsev with h | h | h
  · have hmem : f ∈ flags.filter (fun g => g.severity = "high".data) :=
      List.mem_filter.mpr ⟨hf, by simp [h]⟩
    have hne : flags.filter (fun g => g.severity = "high".data) ≠ [] := by
      intro hE
      rw [hE] at hmem
      simp at hmem
    apply List.mem_append_left
    apply List.mem_append_left
    rw [if_pos hne]
    exact List.mem_cons_of_mem _ (List.mem_map_of_mem _ hmem)
  · have hmem : f ∈ flags.filter (fun g => g.severity = "medium".data) :=
      List.mem_filter.mpr ⟨hf, by simp [h]⟩
    have hne : flags.filter (fun g => g.severity = "medium".data) ≠ [] := by
      intro hE
      rw [hE] at hmem
      simp at hmem
    apply List.mem_append_left
    apply List.mem_append_right
    rw [if_pos hne]
    apply List.mem_append_right
    exact List.mem_cons_of_mem _ (List.mem_map_of_mem _ hmem)
  · have hmem : f ∈ flags.filter (fun g => g.severity = "low".data) :=
      List.mem_filter.mpr ⟨hf, by simp [h]⟩
    have hne : flags.filter (fun g => g.severity = "low".data) ≠ [] := by
      intro hE
      rw [hE] at hmem
      simp at hmem
    apply List.mem_append_right
    rw [if_pos hne]
    apply List.mem_append_right
    exact List.mem_cons_of_mem _ (List.mem_map_of_mem _ hmem)

/-- The single fallback question carries the composite text under
`question` and the computed priority under `priority`. -/
theorem fallback_question_mem {flags : List Flag} (hne : flags ≠ []) {q : PyDict}
    (hq : q ∈ generate_fallback_questions flags) :
    question_text q = fallback_question_text flags ∧
    dictGet q "priority".data (PyVal.pstr []) = PyVal.pstr
      (if flags.filter (fun f => f.severity = "high".data) ≠ [] then "high".data
       else "medium".data) := by
  unfold generate_fallback_questions at hq
  rw [if_neg hne, List.mem_singleton] at hq
  subst hq
  exact ⟨rfl, rfl⟩

/-- The composite fallback text contains the description of every flag of a
recognised severity. -/
theorem fallback_contains_description {flags : List Flag} {f : Flag} (hf : f ∈ flags)
    (hsev : f.severity = "high".data ∨ f.severity = "medium".data
      ∨ f.severity = "low".data) :
    containsSub (fallback_question_text flags) f.description = true := by
  rw [containsSub_iff]
  have h1 : f.description <:+: bullet_line f :=
    ⟨"  • ".data, [], by simp [bullet_line]⟩
  have h2 : bullet_line f <:+: pyJoin "\n".data (fallback_concerns flags) :=
    mem_infix_pyJoin _ (bullet_mem_concerns hf hsev)
  have h3 : pyJoin "\n".data (fallback_concerns flags) <:+: fallback_question_text flags := by
    unfold fallback_question_text
    exact ⟨_, _, rfl⟩
  exact (h1.trans h2).trans h3

/-- A dyadic value with zero mantissa is not greater than zero: the
source's `total_weight > 0` guard fails exactly on a zero total weight. -/
theorem dy_lt_zero_left {x : Dy} (h : x.m = 0) : Dy.lt dy0 x = false := by
  simp [Dy.lt, dy0, h]

/-- The external sentiment helper only ever produces the three labels or
"unknown". -/
theorem infer_sentiment_llm_range (o : LLMOutcome) :
    infer_sentiment_llm o = "positive".data ∨ infer_sentiment_llm o = "negative".data ∨
      infer_sentiment_llm o = "neutral".data ∨ infer_sentiment_llm o = "unknown".data := by
  cases o with
  | raises => exact Or.inr (Or.inr (Or.inr rfl))
  | returns resp =>
    simp only [infer_sentiment_llm]
    split_ifs with h1 h2 h3
    · rcases h1 with h | h | h
      · exact Or.inl h
      · exact Or.inr (Or.inl h)
      · exact Or.inr (Or.inr (Or.inl h))
    · exact Or.inl rfl
    · exact Or.inr (Or.inl rfl)
    · exact Or.inr (Or.inr (Or.inr rfl))

/-! ## Claim theorems -/

/-- Claim C3: for every input text with lexical `sentiment_score >= 3`
(scaled: `30 ≤ sentiment_score10`), the classifier returns "positive" with
the external classification call never invoked, and symmetrically
`sentiment_score <= -3` returns "negative" with no external call, whatever
the hybrid setting and whatever the external call would have done. -/
theorem tier1_no_external_call_c3 (text : Str) (use_hybrid : Bool) (llm : LLMOutcome) :
    (30 ≤ sentiment_score10 text →
      infer_sentiment text use_hybrid llm = ("positive".data, false)) ∧
    (sentiment_score10 text ≤ -30 →
      infer_sentiment text use_hybrid llm = ("negative".data, false)) := by
  constructor
  · intro h
    simp only [infer_sentiment]
    rw [if_pos h]
  · intro h
    simp only [infer_sentiment]
    rw [if_neg (by omega), if_pos h]

/-- Witness for C3 at the concrete texts "great location" (score 5.0) and
"worst landlord ever, mold everywhere, avoid" (score -11.0). -/
theorem tier1_no_external_call_c3_witness :
    30 ≤ sentiment_score10 "great location".data ∧
    infer_sentiment "great location".data true LLMOutcome.raises = ("positive".data, false) ∧
    sentiment_score10 "worst landlord ever, mold everywhere, avoid".data ≤ -30 ∧
    infer_sentiment "worst landlord ever, mold everywhere, avoid".data true LLMOutcome.raises
      = ("negative".data, false) :=
  ⟨by decide, (tier1_no_external_call_c3 "great location".data true LLMOutcome.raises).1
      (by decide),
   by decide, (tier1_no_external_call_c3 "worst landlord ever, mold everywhere, avoid".data
      true LLMOutcome.raises).2 (by decide)⟩

/-- Claim C4: when the classifier escalates (no Tier-1 threshold met,
`confidence < 2`, scaled: `confidence2 < 4`) and the external call raises or
its response is not accepted (the source maps both to "unknown"), the
classifier returns the Tier-3 rule result (`score >= 1` positive,
`score <= -1` negative, else neutral, scaled by 10); moreover the classifier
is total and always returns one of the three labels. -/
theorem llm_failure_tier3_c4 (text : Str) (llm : LLMOutcome) :
    ((¬ 30 ≤ sentiment_score10 text) → (¬ sentiment_score10 text ≤ -30) →
      confidence2 text < 4 →
      (llm = LLMOutcome.raises ∨ infer_sentiment_llm llm = "unknown".data) →
      infer_sentiment text true llm =
        (if 10 ≤ sentiment_score10 text then "positive".data
         else if sentiment_score10 text ≤ -10 then "negative".data
         else "neutral".data, true)) ∧
    ((infer_sentiment text true llm).1 = "positive".data ∨
     (infer_sentiment text true llm).1 = "negative".data ∨
     (infer_sentiment text true llm).1 = "neutral".data) := by
  have hrange := infer_sentiment_llm_range llm
  constructor
  · intro h1 h2 h3 h4
    have hu : infer_sentiment_llm llm = "unknown".data := by
      rcases h4 with h4 | h4
      · subst h4
        rfl
      · exact h4
    simp only [infer_sentiment]
    rw [if_neg h1, if_neg h2, if_pos ⟨trivial, h3⟩, if_neg (fun hne => hne hu)]
  · simp only [infer_sentiment]
    split_ifs <;>
      first
        | exact Or.inl rfl
        | exact Or.inr (Or.inl rfl)
        | exact Or.inr (Or.inr rfl)
        | (rename_i hne
           rcases hrange with h | h | h | h
           · exact Or.inl h
           · exact Or.inr (Or.inl h)
           · exact Or.inr (Or.inr h)
           · exact absurd h hne)

/-- Witness for C4 at the concrete text "meh" (score -1.0, confidence 1)
with an external call that raises. -/
theorem llm_failure_tier3_c4_witness :
    (¬ 30 ≤ sentiment_score10 "meh".data) ∧ (¬ sentiment_score10 "meh".data ≤ -30) ∧
    confidence2 "meh".data < 4 ∧
    infer_sentiment "meh".data true LLMOutcome.raises =
      (if 10 ≤ sentiment_score10 "meh".data then "positive".data
       else if sentiment_score10 "meh".data ≤ -10 then "negative".data
       else "neutral".data, true) :=
  ⟨by decide, by decide, by decide,
   (llm_failure_tier3_c4 "meh".data LLMOutcome.raises).1 (by decide) (by decide) (by decide)
     (Or.inl rfl)⟩

/-- Claim C7: when the flag-tagging step yields zero flags,
`generate_questions` returns the empty question list immediately and the
external generation call is never invoked. -/
theorem empty_flags_shortcircuit_c7 (ta : TextAnalysis) (ia : ImageAnalysis)
    (sr : StudentReviews) (llm : Except Unit (List PyDict))
    (h : (prepare_flags_with_ids ta ia sr).1 = []) :
    generate_questions ta ia sr llm = ([], false) := by
  simp [generate_questions, h]

/-- Witness for C7 at fully empty analysis inputs. -/
theorem empty_flags_shortcircuit_c7_witness :
    (prepare_flags_with_ids { red_flags := [], missing_info := [] }
      { photo_issues := [] } { comments := [] }).1 = [] ∧
    generate_questions { red_flags := [], missing_info := [] }
      { photo_issues := [] } { comments := [] } (Except.ok []) = ([], false) :=
  ⟨by decide,
   empty_flags_shortcircuit_c7 { red_flags := [], missing_info := [] }
     { photo_issues := [] } { comments := [] } (Except.ok []) (by decide)⟩

/-- Claim C8: the overall review score follows the first-match order on the
float-computed weighted ratios — `neg_ratio > 0.5` giving 2.0, then
`pos_ratio > 0.5` giving 4.5, then `pos_ratio > neg_ratio` giving 3.5, then
`neg_ratio > pos_ratio` giving 2.5, else 3.0; a zero total weight (in
particular the empty list) gives 3.0; and the score is always one of
{2.0, 2.5, 3.0, 3.5, 4.5}.  Sums and ratios are binary64 arithmetic, as in
the source. -/
theorem overall_score_quantized_c8 (cs : List (Str × Dy)) :
    overall_score cs ∈ ([score_2_0, score_2_5, score_3_0, score_3_5, score_4_5] : List Dy) ∧
    ((total_weight cs).m = 0 → overall_score cs = score_3_0) ∧
    overall_score ([] : List (Str × Dy)) = score_3_0 ∧
    (Dy.lt dy0 (total_weight cs) = true → Dy.lt dyHalf (neg_share cs) = true →
      overall_score cs = score_2_0) ∧
    (Dy.lt dy0 (total_weight cs) = true → Dy.lt dyHalf (neg_share cs) ≠ true →
      Dy.lt dyHalf (pos_share cs) = true → overall_score cs = score_4_5) ∧
    (Dy.lt dy0 (total_weight cs) = true → Dy.lt dyHalf (neg_share cs) ≠ true →
      Dy.lt dyHalf (pos_share cs) ≠ true →
      Dy.lt (neg_share cs) (pos_share cs) = true → overall_score cs = score_3_5) ∧
    (Dy.lt dy0 (total_weight cs) = true → Dy.lt dyHalf (neg_share cs) ≠ true →
      Dy.lt dyHalf (pos_share cs) ≠ true →
      Dy.lt (neg_share cs) (pos_share cs) ≠ true →
      Dy.lt (pos_share cs) (neg_share cs) = true → overall_score cs = score_2_5) ∧
    (Dy.lt dy0 (total_weight cs) = true → Dy.lt dyHalf (neg_share cs) ≠ true →
      Dy.lt dyHalf (pos_share cs) ≠ true →
      Dy.lt (neg_share cs) (pos_share cs) ≠ true →
      Dy.lt (pos_share cs) (neg_share cs) ≠ true → overall_score cs = score_3_0) := by
  refine ⟨?_, ?_, by decide, ?_, ?_, ?_, ?_, ?_⟩
  · unfold overall_score
    split_ifs <;> decide
  · intro h
    unfold overall_score
    rw [if_neg (by rw [dy_lt_zero_left h]; exact Bool.noConfusion)]
  · intro h0 h1
    unfold overall_score
    rw [if_pos h0, if_pos h1]
  · intro h0 h1 h2
    unfold overall_score
    rw [if_pos h0, if_neg h1, if_pos h2]
  · intro h0 h1 h2 h3
    unfold overall_score
    rw [if_pos h0, if_neg h1, if_neg h2, if_pos h3]
  · intro h0 h1 h2 h3 h4
    unfold overall_score
    rw [if_pos h0, if_neg h1, if_neg h2, if_neg h3, if_pos h4]
  · intro h0 h1 h2 h3 h4
    unfold overall_score
    rw [if_pos h0, if_neg h1, if_neg h2, if_neg h3, if_neg h4]

set_option maxRecDepth 100000 in
/-- Witness for C8 at the one-comment list with a negative sentiment and
weight 1.5 (score 2.0), and at ten 0.7-weight negatives with seven
1.0-weight positives: the float negative ratio there is
`(2^52 + 1) * 2^-53 = 0.5000000000000001 > 0.5` — an exact decimal tie that
binary64 breaks upward — so the score is 2.0, as the source computes. -/
theorem overall_score_quantized_c8_witness :
    Dy.lt dy0 (total_weight [("negative".data, weight15)]) = true ∧
    Dy.lt dyHalf (neg_share [("negative".data, weight15)]) = true ∧
    overall_score [("negative".data, weight15)] = score_2_0 ∧
    neg_share (List.replicate 10 ("negative".data, weight07)
      ++ List.replicate 7 ("positive".data, weight10)) = ⟨4503599627370497, -53⟩ ∧
    Dy.lt dy0 (total_weight (List.replicate 10 ("negative".data, weight07)
      ++ List.replicate 7 ("positive".data, weight10))) = true ∧
    Dy.lt dyHalf (neg_share (List.replicate 10 ("negative".data, weight07)
      ++ List.replicate 7 ("positive".data, weight10))) = true ∧
    overall_score (List.replicate 10 ("negative".data, weight07)
      ++ List.replicate 7 ("positive".data, weight10)) = score_2_0 :=
  ⟨by decide, by decide,
   (overall_score_quantized_c8 [("negative".data, weight15)]).2.2.2.1 (by decide) (by decide),
   by decide, by decide, by decide,
   (overall_score_quantized_c8 (List.replicate 10 ("negative".data, weight07)
      ++ List.replicate 7 ("positive".data, weight10))).2.2.2.1 (by decide) (by decide)⟩

/-- Claim C9: the recency weight is a pure step function of whole months
elapsed against the fixed reference date 2025-01: 1.5 when the elapsed
months are at most 2, 1.2 up to 6, 1.0 up to 12, 0.7 beyond 12, and exactly
1.0 for any input that does not parse as a year-month date (all weights
scaled by 10; totality of the Lean function is the never-raises part). -/
theorem recency_weight_step_c9 (s : Str) :
    (parseYM s = none → calculate_recency_weight10 s = 10) ∧
    (∀ y m, parseYM s = some (y, m) →
      (months_old y m ≤ 2 → calculate_recency_weight10 s = 15) ∧
      (2 < months_old y m → months_old y m ≤ 6 → calculate_recency_weight10 s = 12) ∧
      (6 < months_old y m → months_old y m ≤ 12 → calculate_recency_weight10 s = 10) ∧
      (12 < months_old y m → calculate_recency_weight10 s = 7)) := by
  constructor
  · intro h
    unfold calculate_recency_weight10
    rw [h]
  · intro y m h
    have hw : calculate_recency_weight10 s =
        (if months_old y m ≤ 2 then 15 else if months_old y m ≤ 6 then 12
         else if months_old y m ≤ 12 then 10 else 7) := by
      unfold calculate_recency_weight10
      rw [h]
    refine ⟨?_, ?_, ?_, ?_⟩ <;> rw [hw]
    · intro h1
      rw [if_pos h1]
    · intro h1 h2
      rw [if_neg (by omega), if_pos h2]
    · intro h1 h2
      rw [if_neg (by omega), if_neg (by omega), if_pos h2]
    · intro h1
      rw [if_neg (by omega), if_neg (by omega), if_neg (by omega)]

/-- Witness for C9 at "2024-11" (2 months before the reference, weight 1.5)
and at the unparseable "unknown" (weight 1.0). -/
theorem recency_weight_step_c9_witness :
    parseYM "2024-11".data = some (2024, 11) ∧
    calculate_recency_weight10 "2024-11".data = 15 ∧
    parseYM "unknown".data = none ∧
    calculate_recency_weight10 "unknown".data = 10 :=
  ⟨by decide,
   ((recency_weight_step_c9 "2024-11".data).2 2024 11 (by decide)).1 (by decide),
   by decide,
   (recency_weight_step_c9 "unknown".data).1 (by decide)⟩

/-- Claim C1: every question emitted by `generate_questions` — via the
validated LLM path or the fallback composer — references only flag ids in
the same request's valid flag-id set, whatever the external generator
returned (a candidate with an id outside the set is rejected, and the
fallback question references no ids). -/
theorem grounding_invariant_c1 (ta : TextAnalysis) (ia : ImageAnalysis)
    (sr : StudentReviews) (llm : Except Unit (List PyDict)) (q : PyDict) (fid : Str)
    (hq : q ∈ (generate_questions ta ia sr llm).1) (hid : fid ∈ getFlagIds q) :
    fid ∈ (prepare_flags_with_ids ta ia sr).2 :=
  generate_questions_grounded ta ia sr llm hq hid

/-- Witness for C1: the one-red-flag request with a grounded candidate;
the emitted question references exactly `text_flag_0`, which is valid. -/
theorem grounding_invariant_c1_witness :
    (sample_good_candidate ++ [("category".data, PyVal.pstr "listing_description".data)])
      ∈ (generate_questions sample_ta sample_ia sample_sr
          (Except.ok [sample_good_candidate])).1 ∧
    "text_flag_0".data ∈ getFlagIds
      (sample_good_candidate ++ [("category".data, PyVal.pstr "listing_description".data)]) ∧
    "text_flag_0".data ∈ (prepare_flags_with_ids sample_ta sample_ia sample_sr).2 :=
  ⟨by decide, by decide,
   grounding_invariant_c1 sample_ta sample_ia sample_sr (Except.ok [sample_good_candidate])
     (sample_good_candidate ++ [("category".data, PyVal.pstr "listing_description".data)])
     "text_flag_0".data (by decide) (by decide)⟩

/-- Counterexample to C2 as stated: on the one-red-flag request, a
candidate with an empty `flag_ids` list is accepted by the validator and
emitted, so an emitted question of a non-empty flag set can carry an empty
`flag_ids` field. -/
theorem flag_ids_nonempty_c2_cex :
    (prepare_flags_with_ids sample_ta sample_ia sample_sr).1 ≠ [] ∧
    ∃ q ∈ (generate_questions sample_ta sample_ia sample_sr
      (Except.ok [sample_empty_ids_candidate])).1, getFlagIds q = [] := by
  decide

/-- Claim C2 as amended: for a request with a non-empty flag set, every
element of an emitted question's `flag_ids` field exists in the request's
flag-id set, but the field may be empty (the validator accepts candidates
with empty or missing `flag_ids`) or absent (the fallback question). -/
theorem flag_ids_grounded_c2_amended (ta : TextAnalysis) (ia : ImageAnalysis)
    (sr : StudentReviews) (llm : Except Unit (List PyDict))
    (_hne : (prepare_flags_with_ids ta ia sr).1 ≠ []) (q : PyDict) (fid : Str)
    (hq : q ∈ (generate_questions ta ia sr llm).1) (hid : fid ∈ getFlagIds q) :
    fid ∈ (prepare_flags_with_ids ta ia sr).2 :=
  generate_questions_grounded ta ia sr llm hq hid

/-- Witness for the amended C2 at the one-red-flag request with a grounded
candidate. -/
theorem flag_ids_grounded_c2_amended_witness :
    (prepare_flags_with_ids sample_ta sample_ia sample_sr).1 ≠ [] ∧
    "text_flag_0".data ∈ (prepare_flags_with_ids sample_ta sample_ia sample_sr).2 :=
  ⟨by decide,
   flag_ids_grounded_c2_amended sample_ta sample_ia sample_sr
     (Except.ok [sample_good_candidate]) (by decide)
     (sample_good_candidate ++ [("category".data, PyVal.pstr "listing_description".data)])
     "text_flag_0".data (by decide) (by decide)⟩

/-- Claim C5: the validator falls back exactly when one of the ordered
rules fires — (a) zero validated while flags existed, (b) more rejected
than validated, (c) coverage below half with at least 3 flags — and when
none fires the validated list is returned as-is; in particular 1 validated
question out of 2 flags (with at most as many rejections as acceptances)
passes, while 1 validated question out of 4 flags falls back. -/
theorem fallback_decision_c5 (qs : List PyDict) (valid : List Str) (total_flags : Nat) :
    ((validate_llm_output qs valid total_flags).2.1 = true ↔
      ((validate_loop qs valid).1.length = 0 ∧ 0 < total_flags) ∨
      ((validate_loop qs valid).1.length < (validate_loop qs valid).2) ∨
      (2 * (validate_loop qs valid).1.length < total_flags ∧ 3 ≤ total_flags)) ∧
    ((validate_llm_output qs valid total_flags).2.1 = false →
      (validate_llm_output qs valid total_flags).1 = (validate_loop qs valid).1) ∧
    ((validate_loop qs valid).1.length = 1 → (validate_loop qs valid).2 ≤ 1 →
      total_flags = 2 → (validate_llm_output qs valid total_flags).2.1 = false) ∧
    ((validate_loop qs valid).1.length = 1 → total_flags = 4 →
      (validate_llm_output qs valid total_flags).2.1 = true) := by
  by_cases h1 : (validate_loop qs valid).1.length = 0 ∧ 0 < total_flags
  · have he : validate_llm_output qs valid total_flags
        = ([], true, some "LLM generated 0 valid questions".data) := by
      simp only [validate_llm_output]
      rw [if_pos h1]
    rw [he]
    refine ⟨⟨fun _ => Or.inl h1, fun _ => rfl⟩, fun hf => Bool.noConfusion hf, ?_,
      fun _ _ => rfl⟩
    intro hL hH hT
    exfalso
    omega
  · by_cases h2 : (validate_loop qs valid).1.length < (validate_loop qs valid).2
    · have he : validate_llm_output qs valid total_flags
          = ([], true, some "Too many hallucinations".data) := by
        simp only [validate_llm_output]
        rw [if_neg h1, if_pos h2]
      rw [he]
      refine ⟨⟨fun _ => Or.inr (Or.inl h2), fun _ => rfl⟩, fun hf => Bool.noConfusion hf, ?_,
        fun _ _ => rfl⟩
      intro hL hH hT
      exfalso
      omega
    · by_cases h3 : 2 * (validate_loop qs valid).1.length < max 1 total_flags
        ∧ 3 ≤ total_flags
      · have he : validate_llm_output qs valid total_flags
            = ([], true, some "Low coverage".data) := by
          simp only [validate_llm_output]
          rw [if_neg h1, if_neg h2, if_pos h3]
        rw [he]
        refine ⟨⟨fun _ => Or.inr (Or.inr ⟨by omega, h3.2⟩), fun _ => rfl⟩,
          fun hf => Bool.noConfusion hf, ?_, fun _ _ => rfl⟩
        intro hL hH hT
        exfalso
        omega
      · have he : validate_llm_output qs valid total_flags
            = ((validate_loop qs valid).1, false, none) := by
          simp only [validate_llm_output]
          rw [if_neg h1, if_neg h2, if_neg h3]
        rw [he]
        refine ⟨⟨fun hf => Bool.noConfusion hf, ?_⟩, fun _ => rfl, fun _ _ _ => rfl, ?_⟩
        · intro hd
          exfalso
          rcases hd with hA | hB | hC
          · exact h1 hA
          · exact h2 hB
          · exact h3 ⟨by omega, hC.2⟩
        · intro hL hT
          exfalso
          exact h3 ⟨by omega, by omega⟩

/-- Witness for C5: one grounded candidate against 4 flags falls back (25%
coverage), while the same candidate against 2 flags passes. -/
theorem fallback_decision_c5_witness :
    (validate_loop [sample_good_candidate] ["text_flag_0".data]).1.length = 1 ∧
    (validate_loop [sample_good_candidate] ["text_flag_0".data]).2 ≤ 1 ∧
    (validate_llm_output [sample_good_candidate] ["text_flag_0".data] 4).2.1 = true ∧
    (validate_llm_output [sample_good_candidate] ["text_flag_0".data] 2).2.1 = false :=
  ⟨by decide, by decide,
   (fallback_decision_c5 [sample_good_candidate] ["text_flag_0".data] 4).2.2.2
     (by decide) rfl,
   (fallback_decision_c5 [sample_good_candidate] ["text_flag_0".data] 2).2.2.1
     (by decide) (by decide) rfl⟩

/-- Counterexample to C6 as stated: a single flag whose severity is the
unrestricted upstream string "urgent" falls in none of the three severity
groups, so its description "leaky roof" does not appear in the composite
fallback question. -/
theorem fallback_verbatim_c6_cex :
    (generate_fallback_questions [sample_flag_odd]).length = 1 ∧
    ∀ q ∈ generate_fallback_questions [sample_flag_odd],
      containsSub (question_text q) "leaky roof".data = false := by
  decide

/-- Claim C6 as amended: for every non-empty list of tagged flags whose
severities all lie in {high, medium, low}, the fallback composer returns
exactly one composite question whose text contains every flag's description
verbatim (grouped by severity tier), with priority "high" when a
high-severity flag exists and "medium" otherwise; flags of any other
severity string are omitted from the enumeration (the counterexample). -/
theorem fallback_composite_c6_amended (flags : List Flag) (hne : flags ≠ [])
    (hsev : ∀ f ∈ flags, f.severity = "high".data ∨ f.severity = "medium".data
      ∨ f.severity = "low".data) :
    (generate_fallback_questions flags).length = 1 ∧
    ∀ q ∈ generate_fallback_questions flags,
      (∀ f ∈ flags, containsSub (question_text q) f.description = true) ∧
      dictGet q "priority".data (PyVal.pstr []) = PyVal.pstr
        (if flags.filter (fun f => f.severity = "high".data) ≠ [] then "high".data
         else "medium".data) := by
  constructor
  · unfold generate_fallback_questions
    rw [if_neg hne]
    rfl
  · intro q hq
    obtain ⟨hqt, hpr⟩ := fallback_question_mem hne hq
    refine ⟨?_, hpr⟩
    intro f hf
    rw [hqt]
    exact fallback_contains_description hf (hsev f hf)

/-- Witness for the amended C6 at a two-flag list with severities high and
low. -/
theorem fallback_composite_c6_witness :
    ([sample_flag_high, sample_flag_low] : List Flag) ≠ [] ∧
    ((generate_fallback_questions [sample_flag_high, sample_flag_low]).length = 1 ∧
    ∀ q ∈ generate_fallback_questions [sample_flag_high, sample_flag_low],
      (∀ f ∈ [sample_flag_high, sample_flag_low],
        containsSub (question_text q) f.description = true) ∧
      dictGet q "priority".data (PyVal.pstr []) = PyVal.pstr
        (if ([sample_flag_high, sample_flag_low] : List Flag).filter
            (fun f => f.severity = "high".data) ≠ [] then "high".data
         else "medium".data)) :=
  ⟨by decide,
   fallback_composite_c6_amended [sample_flag_high, sample_flag_low]
     (by decide) (by decide)⟩

/-- Claim C10: the validator modifies an accepted candidate only by writing
the `category` field (derived from the prefix of its first referenced flag
id); every other field is passed through unchanged and unvalidated — in
particular an accepted question's `priority` may be an arbitrary string or
absent altogether. -/
theorem validator_frame_c10 :
    (∀ (qs : List PyDict) (valid : List Str) (total : Nat) (q' : PyDict),
      q' ∈ (validate_llm_output qs valid total).1 →
      ∃ q ∈ qs, accepted_by_validator q valid = true ∧
        q' = dictSet q "category".data (PyVal.pstr (determine_category (getFlagIds q))) ∧
        dictGet q' "category".data (PyVal.pstr []) =
          PyVal.pstr (determine_category (getFlagIds q)) ∧
        ∀ (k : Str) (dflt : PyVal), k ≠ "category".data →
          dictGet q' k dflt = dictGet q k dflt) ∧
    validate_llm_output [sample_good_candidate] ["text_flag_0".data] 1
      = ([sample_good_candidate ++ [("category".data, PyVal.pstr "listing_description".data)]],
         false, none) ∧
    dictGet (sample_good_candidate
        ++ [("category".data, PyVal.pstr "listing_description".data)])
      "priority".data (PyVal.pstr []) = PyVal.pstr "URGENT!!".data ∧
    validate_llm_output [sample_no_priority_candidate] ["text_flag_0".data] 1
      = ([sample_no_priority_candidate
            ++ [("category".data, PyVal.pstr "listing_description".data)]],
         false, none) ∧
    (∀ dflt : PyVal, dictGet (sample_no_priority_candidate
        ++ [("category".data, PyVal.pstr "listing_description".data)])
      "priority".data dflt = dflt) := by
  refine ⟨?_, by decide, by decide, by decide, fun dflt => rfl⟩
  intro qs valid total q' hq
  obtain ⟨q, hmem, hacc, he⟩ := validate_loop_mem (validate_output_mem hq)
  refine ⟨q, hmem, hacc, he, ?_, ?_⟩
  · rw [he]
    exact dictGet_dictSet_self q "category".data _ _
  · intro k dflt hk
    rw [he]
    exact dictGet_dictSet_ne q "category".data k _ dflt hk

/-- Witness for C10: the accepted candidate with the out-of-enumeration
priority is emitted with only `category` added. -/
theorem validator_frame_c10_witness :
    (sample_good_candidate ++ [("category".data, PyVal.pstr "listing_description".data)])
      ∈ (validate_llm_output [sample_good_candidate] ["text_flag_0".data] 1).1 ∧
    ∃ q ∈ [sample_good_candidate], accepted_by_validator q ["text_flag_0".data] = true ∧
      (sample_good_candidate ++ [("category".data, PyVal.pstr "listing_description".data)])
        = dictSet q "category".data (PyVal.pstr (determine_category (getFlagIds q))) ∧
      dictGet (sample_good_candidate
          ++ [("category".data, PyVal.pstr "listing_description".data)])
        "category".data (PyVal.pstr []) =
        PyVal.pstr (determine_category (getFlagIds q)) ∧
      ∀ (k : Str) (dflt : PyVal), k ≠ "category".data →
        dictGet (sample_good_candidate
          ++ [("category".data, PyVal.pstr "listing_description".data)]) k dflt
          = dictGet q k dflt :=
  ⟨by decide,
   validator_frame_c10.1 [sample_good_candidate] ["text_flag_0".data] 1
     (sample_good_candidate ++ [("category".data, PyVal.pstr "listing_description".data)])
     (by decide)⟩

end ApartmentHunter
